import Mathlib

/-!
Shallow embedding of `src/main.py` (Kayzen campaign ingestion into BigQuery)
and proofs of the specified properties.

The program has four functions:
  * `get_kayzen_access_token` — exchanges credentials for a bearer token;
  * `fetch_all_campaigns`     — paginates over the campaigns endpoint;
  * `load_campaigns_to_bigquery` — delete-then-append upsert into a table;
  * `fetch_kayzen_campaigns`  — the Cloud Function entry point.

HTTP responses and warehouse outcomes are modelled as explicit inputs
(oracles); warehouse side effects are modelled as an emitted trace of
operations, in the order the Python code performs them.
-/

/-- A JSON-like Python value, as found in campaign records. -/
inductive Value where
  | str : String → Value
  | int : Int → Value
  | bool : Bool → Value
  | null : Value
deriving DecidableEq, Repr

/-- A campaign record: a Python dict in insertion order (keys unique). -/
abbrev Record := List (String × Value)

/-- Python `d.get(k)` — `none` models Python `None` for a missing key. -/
def pyGet : Record → String → Option Value
  | [], _ => none
  | (k1, v) :: rest, k => if k1 == k then some v else pyGet rest k

/-- Python `d.get(k, default)`. -/
def pyGetD (r : Record) (k : String) (d : Value) : Value :=
  (pyGet r k).getD d

/-- Python truthiness of a value. -/
def pyTruthy : Value → Bool
  | .str s => !s.isEmpty
  | .int n => n != 0
  | .bool b => b
  | .null => false

/-- Python truthiness of `d.get(k)` (missing key, i.e. `None`, is falsy). -/
def pyTruthyOpt : Option Value → Bool
  | none => false
  | some v => pyTruthy v

/-- Python `str(...)` of a value. -/
def pyStr : Value → String
  | .str s => s
  | .int n => toString n
  | .bool b => if b then "True" else "False"
  | .null => "None"

/-- Python `d[k] = v`: update the first binding of `k` in place, else append
the new binding at the end (dict insertion-order semantics). -/
def setKey : Record → String → Value → Record
  | [], k, v => [(k, v)]
  | (k1, v1) :: rest, k, v =>
      if k1 == k then (k, v) :: rest else (k1, v1) :: setKey rest k v

/-- Line 99 of `main.py`: `campaign[\x27fetch_timestamp\x27] = current_timestamp`. -/
def addTimestamp (ts : String) (r : Record) : Record :=
  setKey r "fetch_timestamp" (Value.str ts)

/-- Line 103 of `main.py`:
`[str(campaign.get(\x27id\x27, \x27\x27)) for campaign in campaigns if campaign.get(\x27id\x27)]`. -/
def campaign_ids (campaigns : List Record) : List String :=
  (campaigns.filter (fun c => pyTruthyOpt (pyGet c "id"))).map
    (fun c => pyStr (pyGetD c "id" (Value.str "")))

/-- One warehouse operation performed by the loader, in program order. -/
inductive BqOp where
  | createClient
  | getTable
  | createTableLoad : List Record → BqOp
  | deleteIds : List String → BqOp
  | appendLoad : List Record → BqOp
deriving DecidableEq, Repr

/-- Outcome oracle for the warehouse calls the loader makes: `some e` means
that call raises an exception whose `str` is `e`; `none` means it succeeds.
`getTableError = none` means the table exists and `client.get_table` returns. -/
structure BQEnv where
  getTableError : Option String
  createError : Option String
  deleteError : Option String
  appendError : Option String

/-- Lines 116-129 of `main.py`: append the (timestamp-mutated) batch. -/
def loadAppend (cs : List Record) (env : BQEnv) (ts : String) (ops : List BqOp) :
    List BqOp × Option String :=
  let ops2 := ops ++ [BqOp.appendLoad (cs.map (addTimestamp ts))]
  match env.appendError with
  | some e => (ops2, some e)
  | none => (ops2, none)

/-- Lines 96-114 of `main.py`: mutate each record with the shared timestamp,
build `campaign_ids` from the mutated batch, bulk-delete if non-empty, then
append. -/
def loadPhase2 (cs : List Record) (env : BQEnv) (ts : String) (ops : List BqOp) :
    List BqOp × Option String :=
  let ids := campaign_ids (cs.map (addTimestamp ts))
  if ids.isEmpty then loadAppend cs env ts ops
  else
    let ops2 := ops ++ [BqOp.deleteIds ids]
    match env.deleteError with
    | some e => (ops2, some e)
    | none => loadAppend cs env ts ops2

/-- Lines 66-129 of `main.py` (`load_campaigns_to_bigquery`), as the trace of
warehouse operations attempted plus the exception message propagated to the
caller, if any. An empty batch returns before any client is created; any
exception from `client.get_table` enters the creation branch, which loads
`campaigns[:1]` before the timestamp-mutation loop runs. -/
def load_campaigns_to_bigquery (cs : List Record) (env : BQEnv) (ts : String) :
    List BqOp × Option String :=
  if cs.isEmpty then ([], none)
  else
    match env.getTableError with
    | none => loadPhase2 cs env ts [BqOp.createClient, BqOp.getTable]
    | some _ =>
      let ops1 := [BqOp.createClient, BqOp.getTable,
                   BqOp.createTableLoad (cs.take 1)]
      match env.createError with
      | some e => (ops1, some e)
      | none => loadPhase2 cs env ts ops1

/-- A response to one page request: HTTP status, raw body text, and the value
of `response.json().get("data", [])` (an absent `data` field is `[]`). -/
structure PageResponse where
  status : Nat
  text : String
  data : List Record
deriving DecidableEq, Repr

/-- Result of the pagination loop: the accumulated records and the number of
requests made, or the failure page/status/body (accumulated records are
discarded on failure). -/
inductive FetchResult where
  | ok : List Record → Nat → FetchResult
  | fail : Nat → Nat → String → Nat → FetchResult
deriving DecidableEq, Repr

/-- Line 53 of `main.py`: the fetch exception message. -/
def fetchErrorMessage (page status : Nat) (text : String) : String :=
  "Error fetching data on page " ++ toString page ++
    " with status code " ++ toString status ++ ": " ++ text

/-- The `while True` loop of lines 44-61. The server is modelled as the finite
list of responses to pages 1, 2, ...; once the list is exhausted the server
answers every further request with status 200 and an empty `data` list (the
"eventually empty page" the loop relies on for termination). -/
def fetchGo : List PageResponse → Nat → Nat → List Record → FetchResult
  | [], _, reqs, acc => FetchResult.ok acc (reqs + 1)
  | r :: rest, page, reqs, acc =>
      if r.status ≠ 200 then FetchResult.fail page r.status r.text (reqs + 1)
      else if r.data.isEmpty then FetchResult.ok acc (reqs + 1)
      else fetchGo rest (page + 1) (reqs + 1) (acc ++ r.data)

/-- Lines 38-63 of `main.py` (`fetch_all_campaigns`): start at page 1 with an
empty accumulator. -/
def fetch_all_campaigns (pages : List PageResponse) : FetchResult :=
  fetchGo pages 1 0 []

/-- Concatenation, in order, of the `data` lists of a sequence of pages. -/
def pagesData : List PageResponse → List Record
  | [] => []
  | r :: rest => r.data ++ pagesData rest

/-- A response from the token endpoint: HTTP status, raw body text, and the
parsed JSON body. -/
structure TokenResponse where
  status : Nat
  text : String
  json : Record

/-- Line 33 of `main.py`: the failed-auth exception message. -/
def authErrorMessage (status : Nat) (text : String) : String :=
  "Authentication failed with status code " ++ toString status ++ ": " ++ text

/-- Lines 26-35 of `main.py` (`get_kayzen_access_token`): non-200 raises with
status and body; otherwise `response.json()[\x27access_token\x27]` is returned
(a missing key raises Python `KeyError`, whose `str` is the quoted key). -/
def get_kayzen_access_token (resp : TokenResponse) : Except String Value :=
  if resp.status ≠ 200 then
    Except.error (authErrorMessage resp.status resp.text)
  else
    match pyGet resp.json "access_token" with
    | some v => Except.ok v
    | none => Except.error "\x27access_token\x27"

/-- The seven environment variables read by the entry point; `none` models an
unset variable (`os.environ.get` returning `None`). -/
structure Config where
  api_key : Option String
  api_secret : Option String
  username : Option String
  password : Option String
  project_id : Option String
  dataset_id : Option String
  table_id : Option String

/-- Python truthiness of `os.environ.get(...)`: `None` and `""` are falsy. -/
def pyTruthyStrOpt : Option String → Bool
  | none => false
  | some s => !s.isEmpty

/-- Line 146 of `main.py`: `all(required_vars)`. -/
def configOk (cfg : Config) : Bool :=
  pyTruthyStrOpt cfg.api_key && pyTruthyStrOpt cfg.api_secret &&
  pyTruthyStrOpt cfg.username && pyTruthyStrOpt cfg.password &&
  pyTruthyStrOpt cfg.project_id && pyTruthyStrOpt cfg.dataset_id &&
  pyTruthyStrOpt cfg.table_id

/-- The JSON payload of the entry point response (line 165 / 175). -/
inductive RespBody where
  | success : Nat → RespBody
  | failure : String → RespBody
deriving DecidableEq, Repr

/-- The dict returned by the entry point. -/
structure HttpResp where
  statusCode : Nat
  body : RespBody
deriving DecidableEq, Repr

/-- Observable side effects of one invocation: whether the token endpoint was
called, how many page requests were made, and the warehouse operations. -/
structure Trace where
  authCalled : Bool
  fetchRequests : Nat
  bqOps : List BqOp
deriving DecidableEq, Repr

/-- Lines 132-178 of `main.py` (`fetch_kayzen_campaigns`): validate the seven
environment values, then authenticate, fetch, and load, converting any
exception into a 500 response carrying `str(e)`. The second component records
the I/O performed. -/
def fetch_kayzen_campaigns (cfg : Config) (auth : TokenResponse)
    (pages : List PageResponse) (bq : BQEnv) (ts : String) : HttpResp × Trace :=
  if !configOk cfg then
    (⟨500, RespBody.failure "Missing required environment variables"⟩,
      ⟨false, 0, []⟩)
  else
    match get_kayzen_access_token auth with
    | Except.error e => (⟨500, RespBody.failure e⟩, ⟨true, 0, []⟩)
    | Except.ok _ =>
      match fetch_all_campaigns pages with
      | FetchResult.fail p s t reqs =>
          (⟨500, RespBody.failure (fetchErrorMessage p s t)⟩, ⟨true, reqs, []⟩)
      | FetchResult.ok campaigns reqs =>
        match load_campaigns_to_bigquery campaigns bq ts with
        | (ops, some e) => (⟨500, RespBody.failure e⟩, ⟨true, reqs, ops⟩)
        | (ops, none) =>
            (⟨200, RespBody.success campaigns.length⟩, ⟨true, reqs, ops⟩)

/-- Substring containment. -/
def strContains (s sub : String) : Prop :=
  ∃ pre post, s = pre ++ sub ++ post

/-- Whether an operation is a bulk delete. -/
def isDeleteOp : BqOp → Bool
  | BqOp.deleteIds _ => true
  | _ => false

/-- Concrete batch whose single record has no `id` field (so M = 0). -/
def noIdBatch : List Record := [[("name", Value.str "x")]]

/-- Warehouse oracle in which every call succeeds. -/
def allOkEnv : BQEnv := ⟨none, none, none, none⟩

/-! ### Helper lemmas -/

theorem pyGet_setKey_ne (r : Record) (k k2 : String) (v : Value) (h : k ≠ k2) :
    pyGet (setKey r k v) k2 = pyGet r k2 := by
  induction r with
  | nil => simp [setKey, pyGet, h]
  | cons p rest ih =>
    obtain ⟨k1, v1⟩ := p
    by_cases hk : k1 = k
    · subst hk
      simp [setKey, pyGet, h]
    · simp [setKey, pyGet, hk, ih]

theorem pyGet_setKey_self (r : Record) (k : String) (v : Value) :
    pyGet (setKey r k v) k = some v := by
  induction r with
  | nil => simp [setKey, pyGet]
  | cons p rest ih =>
    obtain ⟨k1, v1⟩ := p
    by_cases hk : k1 = k
    · subst hk
      simp [setKey, pyGet]
    · simp [setKey, pyGet, hk, ih]

theorem pyGet_addTimestamp_id (ts : String) (r : Record) :
    pyGet (addTimestamp ts r) "id" = pyGet r "id" :=
  pyGet_setKey_ne r "fetch_timestamp" "id" (Value.str ts) (by decide)

theorem pyGet_addTimestamp_self (ts : String) (r : Record) :
    pyGet (addTimestamp ts r) "fetch_timestamp" = some (Value.str ts) :=
  pyGet_setKey_self r "fetch_timestamp" (Value.str ts)

theorem campaign_ids_cons (c : Record) (cs : List Record) :
    campaign_ids (c :: cs) =
      if pyTruthyOpt (pyGet c "id")
      then pyStr (pyGetD c "id" (Value.str "")) :: campaign_ids cs
      else campaign_ids cs := by
  by_cases h : pyTruthyOpt (pyGet c "id") <;>
    simp [campaign_ids, List.filter_cons, h]

theorem campaign_ids_addTimestamp (ts : String) (cs : List Record) :
    campaign_ids (cs.map (addTimestamp ts)) = campaign_ids cs := by
  induction cs with
  | nil => rfl
  | cons c rest ih =>
    rw [List.map_cons, campaign_ids_cons, campaign_ids_cons,
        pyGet_addTimestamp_id, ih]
    by_cases h : pyTruthyOpt (pyGet c "id") <;>
      simp [h, pyGetD, pyGet_addTimestamp_id]

theorem fetchGo_good_pages (ps : List PageResponse)
    (h : ∀ r ∈ ps, r.status = 200 ∧ r.data ≠ []) (tail : List PageResponse)
    (htail : tail = [] ∨
      ∃ stop rest, tail = stop :: rest ∧ stop.status = 200 ∧ stop.data = [])
    (page reqs : Nat) (acc : List Record) :
    fetchGo (ps ++ tail) page reqs acc =
      FetchResult.ok (acc ++ pagesData ps) (reqs + ps.length + 1) := by
  induction ps generalizing page reqs acc with
  | nil =>
    rcases htail with rfl | ⟨stop, rest, rfl, hst, hsd⟩
    · simp [fetchGo, pagesData]
    · simp [fetchGo, pagesData, hst, hsd]
  | cons r ps ih =>
    obtain ⟨hst, hd⟩ := h r (List.mem_cons_self r ps)
    have hne : r.data.isEmpty = false := by
      simpa [List.isEmpty_iff] using hd
    rw [List.cons_append]
    rw [show fetchGo (r :: (ps ++ tail)) page reqs acc =
        fetchGo (ps ++ tail) (page + 1) (reqs + 1) (acc ++ r.data) by
      simp [fetchGo, hst, hne]]
    rw [ih (fun q hq => h q (List.mem_cons_of_mem r hq)) (page + 1) (reqs + 1)
        (acc ++ r.data)]
    have hA : (acc ++ r.data) ++ pagesData ps = acc ++ pagesData (r :: ps) := by
      simp [pagesData, List.append_assoc]
    have hB : reqs + 1 + ps.length + 1 = reqs + (r :: ps).length + 1 := by
      simp
      omega
    rw [hA, hB]

theorem fetchGo_fail_at (ps : List PageResponse) (bad : PageResponse)
    (rest : List PageResponse)
    (h : ∀ r ∈ ps, r.status = 200 ∧ r.data ≠ []) (hbad : bad.status ≠ 200)
    (page reqs : Nat) (acc : List Record) :
    fetchGo (ps ++ bad :: rest) page reqs acc =
      FetchResult.fail (page + ps.length) bad.status bad.text
        (reqs + ps.length + 1) := by
  induction ps generalizing page reqs acc with
  | nil => simp [fetchGo, hbad]
  | cons r ps ih =>
    obtain ⟨hst, hd⟩ := h r (List.mem_cons_self r ps)
    have hne : r.data.isEmpty = false := by
      simpa [List.isEmpty_iff] using hd
    rw [List.cons_append]
    rw [show fetchGo (r :: (ps ++ bad :: rest)) page reqs acc =
        fetchGo (ps ++ bad :: rest) (page + 1) (reqs + 1) (acc ++ r.data) by
      simp [fetchGo, hst, hne]]
    rw [ih (fun q hq => h q (List.mem_cons_of_mem r hq)) (page + 1) (reqs + 1)
        (acc ++ r.data)]
    have hp : page + 1 + ps.length = page + (r :: ps).length := by
      simp
      omega
    have hq : reqs + 1 + ps.length + 1 = reqs + (r :: ps).length + 1 := by
      simp
      omega
    rw [hp, hq]

/-! ### Claim theorems -/

/-- Claim C2: for any k pages that each return status 200 with non-empty data,
followed by a page whose `data` is empty or absent (modelled by the server
list ending, or by an explicit empty 200 page), `fetch_all_campaigns`
terminates and returns the in-order concatenation of the k data lists, with
no deduplication, after exactly k+1 requests; with k = 0 it returns the empty
sequence after exactly one request. -/
theorem fetch_pagination_spec (ps tail : List PageResponse)
    (hgood : ∀ r ∈ ps, r.status = 200 ∧ r.data ≠ [])
    (htail : tail = [] ∨
      ∃ stop rest, tail = stop :: rest ∧ stop.status = 200 ∧ stop.data = []) :
    fetch_all_campaigns (ps ++ tail) =
      FetchResult.ok (pagesData ps) (ps.length + 1) := by
  have h := fetchGo_good_pages ps hgood tail htail 1 0 []
  simpa [fetch_all_campaigns] using h

/-- Witness for C2: a zero-campaign account (first page empty, modelled by the
empty server list) yields the empty sequence after exactly one request. -/
theorem fetch_pagination_spec_witness :
    fetch_all_campaigns [] = FetchResult.ok [] 1 := by
  have h := fetch_pagination_spec [] [] (by simp) (Or.inl rfl)
  simpa using h

/-- Claim C5: when pages 1..p-1 succeed with non-empty data and page p returns
a non-200 status, the fetch fails carrying the 1-indexed page number p, the
status code and the response body (all three also substrings of the raised
message), and no accumulated records are returned. -/
theorem fetch_fail_spec (ps : List PageResponse) (bad : PageResponse)
    (rest : List PageResponse)
    (hgood : ∀ r ∈ ps, r.status = 200 ∧ r.data ≠ [])
    (hbad : bad.status ≠ 200) :
    fetch_all_campaigns (ps ++ bad :: rest) =
      FetchResult.fail (ps.length + 1) bad.status bad.text (ps.length + 1)
    ∧ (∀ recs n,
        fetch_all_campaigns (ps ++ bad :: rest) ≠ FetchResult.ok recs n)
    ∧ strContains (fetchErrorMessage (ps.length + 1) bad.status bad.text)
        (toString (ps.length + 1))
    ∧ strContains (fetchErrorMessage (ps.length + 1) bad.status bad.text)
        (toString bad.status)
    ∧ strContains (fetchErrorMessage (ps.length + 1) bad.status bad.text)
        bad.text := by
  have h := fetchGo_fail_at ps bad rest hgood hbad 1 0 []
  have heq : fetch_all_campaigns (ps ++ bad :: rest) =
      FetchResult.fail (ps.length + 1) bad.status bad.text (ps.length + 1) := by
    rw [fetch_all_campaigns, h]
    have : 1 + ps.length = ps.length + 1 := by omega
    rw [this]
    have : 0 + ps.length + 1 = ps.length + 1 := by omega
    rw [this]
  refine ⟨heq, ?_, ?_, ?_, ?_⟩
  · intro recs n hok
    rw [heq] at hok
    exact FetchResult.noConfusion hok
  · exact ⟨"Error fetching data on page ",
      " with status code " ++ toString bad.status ++ ": " ++ bad.text,
      by simp [fetchErrorMessage, String.append_assoc]⟩
  · exact ⟨"Error fetching data on page " ++ toString (ps.length + 1) ++
        " with status code ", ": " ++ bad.text,
      by simp [fetchErrorMessage, String.append_assoc]⟩
  · exact ⟨"Error fetching data on page " ++ toString (ps.length + 1) ++
        " with status code " ++ toString bad.status ++ ": ", "",
      by simp [fetchErrorMessage, String.append_assoc]⟩

/-- Witness for C5: a single page answering 500 fails at page 1 with the
status and body, returning no records. -/
theorem fetch_fail_spec_witness :
    fetch_all_campaigns [⟨500, "oops", []⟩] =
      FetchResult.fail 1 500 "oops" 1 := by
  have h := fetch_fail_spec [] ⟨500, "oops", []⟩ [] (by simp) (by decide)
  simpa using h.1

/-- Claim C4: on a 200 token response, `get_kayzen_access_token` returns
exactly the value stored under `access_token`; on any non-200 response it
fails with a message containing the status code and the raw body, and no
token is returned. -/
theorem auth_token_spec (resp : TokenResponse) :
    (∀ tok, resp.status = 200 → pyGet resp.json "access_token" = some tok →
      get_kayzen_access_token resp = Except.ok tok)
    ∧ (resp.status ≠ 200 →
      get_kayzen_access_token resp =
          Except.error (authErrorMessage resp.status resp.text)
        ∧ strContains (authErrorMessage resp.status resp.text)
            (toString resp.status)
        ∧ strContains (authErrorMessage resp.status resp.text) resp.text
        ∧ ∀ tok, get_kayzen_access_token resp ≠ Except.ok tok) := by
  constructor
  · intro tok h200 hkey
    simp [get_kayzen_access_token, h200, hkey]
  · intro hne
    have heq : get_kayzen_access_token resp =
        Except.error (authErrorMessage resp.status resp.text) := by
      simp [get_kayzen_access_token, hne]
    refine ⟨heq, ?_, ?_, ?_⟩
    · exact ⟨"Authentication failed with status code ",
        ": " ++ resp.text,
        by simp [authErrorMessage, String.append_assoc]⟩
    · exact ⟨"Authentication failed with status code " ++
          toString resp.status ++ ": ", "",
        by simp [authErrorMessage, String.append_assoc]⟩
    · intro tok hok
      rw [heq] at hok
      exact Except.noConfusion hok

/-- Witness for C4: a 200 response whose JSON carries an access token yields
exactly that token. -/
theorem auth_token_spec_witness :
    get_kayzen_access_token ⟨200, "", [("access_token", Value.str "tok")]⟩ =
      Except.ok (Value.str "tok") :=
  (auth_token_spec ⟨200, "", [("access_token", Value.str "tok")]⟩).1
    (Value.str "tok") rfl rfl

/-- Claim C6: loading an empty batch performs no warehouse operation at all
(no client creation, no metadata read, no table creation, no delete, no
append) and returns without error, for every warehouse oracle. -/
theorem load_empty_noop (env : BQEnv) (ts : String) :
    load_campaigns_to_bigquery [] env ts = ([], none) := rfl

theorem loadPhase2_eq_of_ok (cs : List Record) (env : BQEnv) (ts : String)
    (ops : List BqOp) (hM : campaign_ids cs ≠ [])
    (hd : env.deleteError = none) (ha : env.appendError = none) :
    loadPhase2 cs env ts ops =
      (ops ++ [BqOp.deleteIds (campaign_ids cs),
               BqOp.appendLoad (cs.map (addTimestamp ts))], none) := by
  have hM2 : (campaign_ids (cs.map (addTimestamp ts))).isEmpty = false := by
    rw [campaign_ids_addTimestamp]
    simpa [List.isEmpty_iff] using hM
  simp [loadPhase2, loadAppend, hM2, hd, ha, campaign_ids_addTimestamp, hM]

theorem campaign_ids_mem (cs : List Record) (s : String) :
    s ∈ campaign_ids cs ↔
      ∃ c ∈ cs, pyTruthyOpt (pyGet c "id") = true ∧
        s = pyStr (pyGetD c "id" (Value.str "")) := by
  simp only [campaign_ids, List.mem_map, List.mem_filter]
  constructor
  · rintro ⟨c, ⟨hc, ht⟩, rfl⟩
    exact ⟨c, hc, ht, rfl⟩
  · rintro ⟨c, hc, ht, rfl⟩
    exact ⟨c, ⟨hc, ht⟩, rfl⟩

/-- Claim C1 counterexample: a non-empty batch whose single record has no
`id` field (so M = 0) triggers no bulk delete at all, while the claim as
stated requires one bulk delete whose id list is the (empty) set of the M
string-cast ids. The load still succeeds and appends. -/
theorem load_upsert_cex :
    noIdBatch ≠ [] ∧
    (∀ r ∈ noIdBatch, pyTruthyOpt (pyGet r "id") = false) ∧
    (load_campaigns_to_bigquery noIdBatch allOkEnv "T").1.countP isDeleteOp = 0 ∧
    (load_campaigns_to_bigquery noIdBatch allOkEnv "T").2 = none := by
  refine ⟨by decide, by decide, ?_, ?_⟩ <;> rfl

/-- Claim C1 (amended): for a non-empty batch whose set of truthy string-cast
ids is non-empty (M ≥ 1), the load succeeds, issues exactly one bulk delete
whose id list is the string-cast truthy ids of the batch — as a set, exactly
the M distinct non-empty ids — and only afterwards appends all N records,
every one carrying the same `fetch_timestamp`; when M = 0 the delete is
skipped (the append still happens, as shown by the counterexample). -/
theorem load_upsert_spec (cs : List Record) (env : BQEnv) (ts : String)
    (hM : campaign_ids cs ≠ [])
    (hc : env.createError = none) (hd : env.deleteError = none)
    (ha : env.appendError = none) :
    (load_campaigns_to_bigquery cs env ts).2 = none
    ∧ (load_campaigns_to_bigquery cs env ts).1 =
        [BqOp.createClient, BqOp.getTable]
        ++ (match env.getTableError with
            | none => []
            | some _ => [BqOp.createTableLoad (cs.take 1)])
        ++ [BqOp.deleteIds (campaign_ids cs),
            BqOp.appendLoad (cs.map (addTimestamp ts))]
    ∧ (load_campaigns_to_bigquery cs env ts).1.countP isDeleteOp = 1
    ∧ (∀ s, s ∈ campaign_ids cs ↔
        ∃ c ∈ cs, pyTruthyOpt (pyGet c "id") = true ∧
          s = pyStr (pyGetD c "id" (Value.str "")))
    ∧ (cs.map (addTimestamp ts)).length = cs.length
    ∧ (∀ r ∈ cs.map (addTimestamp ts),
        pyGet r "fetch_timestamp" = some (Value.str ts)) := by
  have hne : cs.isEmpty = false := by
    cases cs with
    | nil => exact absurd rfl hM
    | cons c rest => rfl
  have hload : load_campaigns_to_bigquery cs env ts =
      ([BqOp.createClient, BqOp.getTable]
        ++ (match env.getTableError with
            | none => []
            | some _ => [BqOp.createTableLoad (cs.take 1)])
        ++ [BqOp.deleteIds (campaign_ids cs),
            BqOp.appendLoad (cs.map (addTimestamp ts))], none) := by
    cases hg : env.getTableError with
    | none =>
      simp [load_campaigns_to_bigquery, hne, hg,
        loadPhase2_eq_of_ok cs env ts _ hM hd ha]
    | some e =>
      simp [load_campaigns_to_bigquery, hne, hg, hc,
        loadPhase2_eq_of_ok cs env ts _ hM hd ha]
  refine ⟨by rw [hload], by rw [hload], ?_, fun s => campaign_ids_mem cs s,
    by simp, ?_⟩
  · rw [hload]
    cases env.getTableError <;> simp [isDeleteOp]
  · intro r hr
    obtain ⟨c, _, rfl⟩ := List.mem_map.mp hr
    exact pyGet_addTimestamp_self ts c

/-- Witness for C1: a one-record batch with id 7 on an existing table deletes
exactly ["7"] and then appends the timestamped record. -/
theorem load_upsert_spec_witness :
    (load_campaigns_to_bigquery [[("id", Value.int 7)]] allOkEnv "T").1 =
      [BqOp.createClient, BqOp.getTable, BqOp.deleteIds ["7"],
       BqOp.appendLoad
         [[("id", Value.int 7), ("fetch_timestamp", Value.str "T")]]] :=
  ((load_upsert_spec [[("id", Value.int 7)]] allOkEnv "T"
    (by decide) rfl rfl rfl).2.1).trans (by decide)

theorem loadPhase2_extendsOps (cs : List Record) (env : BQEnv) (ts : String)
    (ops : List BqOp) :
    ∃ suffix, (loadPhase2 cs env ts ops).1 = ops ++ suffix := by
  unfold loadPhase2 loadAppend
  by_cases h : (campaign_ids (cs.map (addTimestamp ts))).isEmpty
  · cases env.appendError <;> simp [h]
  · cases env.deleteError <;> cases env.appendError <;> simp [h]

theorem loadPhase2_env_congr (cs : List Record) (ts : String) (ops : List BqOp)
    (env1 env2 : BQEnv) (hd : env1.deleteError = env2.deleteError)
    (ha : env1.appendError = env2.appendError) :
    loadPhase2 cs env1 ts ops = loadPhase2 cs env2 ts ops := by
  unfold loadPhase2 loadAppend
  rw [hd, ha]

theorem loadAppend_mem (cs : List Record) (env : BQEnv) (ts : String)
    (ops : List BqOp) :
    BqOp.appendLoad (cs.map (addTimestamp ts)) ∈ (loadAppend cs env ts ops).1 := by
  unfold loadAppend
  cases env.appendError <;> simp

theorem loadPhase2_append_mem (cs : List Record) (env : BQEnv) (ts : String)
    (ops : List BqOp) (hd : env.deleteError = none) :
    BqOp.appendLoad (cs.map (addTimestamp ts)) ∈ (loadPhase2 cs env ts ops).1 := by
  unfold loadPhase2
  by_cases h : (campaign_ids (cs.map (addTimestamp ts))).isEmpty
  · simp only [h, if_true]
    exact loadAppend_mem cs env ts ops
  · simp only [h, if_false, hd]
    exact loadAppend_mem cs env ts _

/-- Claim C8: any exception from the table-metadata read — not only a genuine
not-found — sends the loader into the table-creation path: the creation load
of `campaigns[:1]` is attempted, the outcome does not depend on which
exception was raised, and when the remaining warehouse calls succeed the load
completes without propagating the original error. -/
theorem load_get_table_error_spec (cs : List Record) (env : BQEnv)
    (ts e : String) (hne : cs ≠ []) (he : env.getTableError = some e) :
    BqOp.createTableLoad (cs.take 1) ∈ (load_campaigns_to_bigquery cs env ts).1
    ∧ (∀ e2, load_campaigns_to_bigquery cs
        ⟨some e2, env.createError, env.deleteError, env.appendError⟩ ts =
        load_campaigns_to_bigquery cs env ts)
    ∧ (env.createError = none → env.deleteError = none →
        env.appendError = none →
        (load_campaigns_to_bigquery cs env ts).2 = none) := by
  have hne2 : cs.isEmpty = false := by
    cases cs with
    | nil => exact absurd rfl hne
    | cons c rest => rfl
  refine ⟨?_, ?_, ?_⟩
  · cases hc : env.createError with
    | some e2 => simp [load_campaigns_to_bigquery, hne2, he, hc]
    | none =>
      simp only [load_campaigns_to_bigquery, hne2, Bool.false_eq_true,
        if_false, he, hc]
      obtain ⟨suffix, hs⟩ := loadPhase2_extendsOps cs env ts
        [BqOp.createClient, BqOp.getTable, BqOp.createTableLoad (cs.take 1)]
      rw [hs]
      exact List.mem_append_left _ (by simp)
  · intro e2
    simp only [load_campaigns_to_bigquery, hne2, Bool.false_eq_true, if_false,
      he]
    cases hc : env.createError with
    | some e3 => rfl
    | none =>
      exact loadPhase2_env_congr cs ts _ _ env rfl rfl
  · intro hc hd ha
    simp only [load_campaigns_to_bigquery, hne2, Bool.false_eq_true, if_false,
      he, hc]
    by_cases hM : campaign_ids cs = []
    · have hM2 : (campaign_ids (cs.map (addTimestamp ts))).isEmpty = true := by
        rw [campaign_ids_addTimestamp, hM]
        rfl
      simp [loadPhase2, loadAppend, hM2, ha]
    · rw [loadPhase2_eq_of_ok cs env ts _ hM hd ha]

/-- Witness for C8: with a one-record batch and a failing metadata read, the
creation load of the first record is attempted. -/
theorem load_get_table_error_spec_witness :
    BqOp.createTableLoad [[("id", Value.int 1)]] ∈
      (load_campaigns_to_bigquery [[("id", Value.int 1)]]
        ⟨some "boom", none, none, none⟩ "T").1 := by
  have h := load_get_table_error_spec [[("id", Value.int 1)]]
    ⟨some "boom", none, none, none⟩ "T" "boom" (by decide) rfl
  simpa using h.1

theorem loadAppend_ops (cs : List Record) (env : BQEnv) (ts : String)
    (ops : List BqOp) :
    (loadAppend cs env ts ops).1 =
      ops ++ [BqOp.appendLoad (cs.map (addTimestamp ts))] := by
  unfold loadAppend
  cases env.appendError <;> rfl

theorem loadPhase2_ops_of_delete_ok (cs : List Record) (env : BQEnv)
    (ts : String) (ops : List BqOp) (hd : env.deleteError = none) :
    (loadPhase2 cs env ts ops).1 =
      ops ++ (if campaign_ids cs = [] then []
              else [BqOp.deleteIds (campaign_ids cs)])
          ++ [BqOp.appendLoad (cs.map (addTimestamp ts))] := by
  unfold loadPhase2
  by_cases hM : campaign_ids cs = []
  · have hM2 : (campaign_ids (cs.map (addTimestamp ts))).isEmpty = true := by
      rw [campaign_ids_addTimestamp, hM]
      rfl
    simp [hM2, hM, loadAppend_ops]
  · have hM2 : (campaign_ids (cs.map (addTimestamp ts))).isEmpty = false := by
      rw [campaign_ids_addTimestamp]
      simpa [List.isEmpty_iff] using hM
    simp [hM2, hM, hd, loadAppend_ops, campaign_ids_addTimestamp,
      List.append_assoc]

/-- Claim C10: when the metadata read fails (table treated as absent) and the
creation load succeeds, the creation load receives exactly `campaigns[:1]` as
it was before the timestamp loop ran — so, assuming the fetched record had no
`fetch_timestamp`, the record submitted for schema auto-detection lacks the
field — while the very same record, mutated afterwards, heads the appended
batch carrying `fetch_timestamp = ts`. -/
theorem load_create_before_timestamp (c : Record) (rest : List Record)
    (env : BQEnv) (ts e : String)
    (he : env.getTableError = some e) (hc : env.createError = none)
    (hd : env.deleteError = none)
    (hts : pyGet c "fetch_timestamp" = none) :
    (load_campaigns_to_bigquery (c :: rest) env ts).1 =
      [BqOp.createClient, BqOp.getTable, BqOp.createTableLoad [c]]
      ++ (if campaign_ids (c :: rest) = [] then []
          else [BqOp.deleteIds (campaign_ids (c :: rest))])
      ++ [BqOp.appendLoad ((c :: rest).map (addTimestamp ts))]
    ∧ pyGet c "fetch_timestamp" = none
    ∧ ((c :: rest).map (addTimestamp ts)).head? = some (addTimestamp ts c)
    ∧ pyGet (addTimestamp ts c) "fetch_timestamp" = some (Value.str ts) := by
  refine ⟨?_, hts, by simp, pyGet_addTimestamp_self ts c⟩
  simp only [load_campaigns_to_bigquery, List.isEmpty_cons,
    Bool.false_eq_true, if_false, he, hc]
  rw [loadPhase2_ops_of_delete_ok (c :: rest) env ts _ hd]
  simp [List.take, List.append_assoc]

/-- Witness for C10: one record with id 3 and no timestamp, absent table: the
creation load gets the raw record, the append gets the timestamped one. -/
theorem load_create_before_timestamp_witness :
    (load_campaigns_to_bigquery [[("id", Value.int 3)]]
      ⟨some "not found", none, none, none⟩ "T").1 =
      [BqOp.createClient, BqOp.getTable,
       BqOp.createTableLoad [[("id", Value.int 3)]],
       BqOp.deleteIds ["3"],
       BqOp.appendLoad
         [[("id", Value.int 3), ("fetch_timestamp", Value.str "T")]]] :=
  ((load_create_before_timestamp [("id", Value.int 3)] []
    ⟨some "not found", none, none, none⟩ "T" "not found"
    rfl rfl rfl rfl).1).trans (by decide)

/-- Claim C9: the delete id list is built by truthiness, in batch order,
without deduplication — a record with a missing or falsy `id` contributes no
entry yet is still appended; a truthy id is string-cast and prepended in
batch position; and each id occurs in the list exactly as many times as
records carrying it, so a duplicated id occurs twice. -/
theorem delete_ids_truthiness_spec :
    (∀ c cs, pyTruthyOpt (pyGet c "id") = false →
      campaign_ids (c :: cs) = campaign_ids cs)
    ∧ (∀ c cs, pyTruthyOpt (pyGet c "id") = true →
      campaign_ids (c :: cs) =
        pyStr (pyGetD c "id" (Value.str "")) :: campaign_ids cs)
    ∧ (∀ cs s, (campaign_ids cs).count s =
      cs.countP (fun c => pyTruthyOpt (pyGet c "id")
        && (pyStr (pyGetD c "id" (Value.str "")) == s)))
    ∧ (∀ c cs env ts, c ∈ cs → env.createError = none →
      env.deleteError = none →
      BqOp.appendLoad (cs.map (addTimestamp ts)) ∈
        (load_campaigns_to_bigquery cs env ts).1
      ∧ addTimestamp ts c ∈ cs.map (addTimestamp ts)) := by
  refine ⟨?_, ?_, ?_, ?_⟩
  · intro c cs h
    simp [campaign_ids_cons, h]
  · intro c cs h
    simp [campaign_ids_cons, h]
  · intro cs s
    induction cs with
    | nil => rfl
    | cons c rest ih =>
      rw [campaign_ids_cons, List.countP_cons]
      by_cases h : pyTruthyOpt (pyGet c "id")
      · rw [if_pos h]
        by_cases hs : pyStr (pyGetD c "id" (Value.str "")) = s
        · simp [List.count_cons, hs, h, ih]
        · simp [List.count_cons, hs, h, ih]
      · have h2 : pyTruthyOpt (pyGet c "id") = false := by
          simpa using h
        simp [h2, ih]
  · intro c cs env ts hmem hc hd
    have hne2 : cs.isEmpty = false := by
      cases cs with
      | nil => exact absurd hmem (List.not_mem_nil c)
      | cons a b => rfl
    refine ⟨?_, List.mem_map_of_mem (addTimestamp ts) hmem⟩
    cases hg : env.getTableError with
    | none =>
      simp only [load_campaigns_to_bigquery, hne2, Bool.false_eq_true,
        if_false, hg]
      exact loadPhase2_append_mem cs env ts _ hd
    | some e =>
      simp only [load_campaigns_to_bigquery, hne2, Bool.false_eq_true,
        if_false, hg, hc]
      exact loadPhase2_append_mem cs env ts _ hd

/-- Witness for C9: a batch with the same id twice puts that id twice in the
delete list; a falsy-id record contributes nothing. -/
theorem delete_ids_truthiness_spec_witness :
    (campaign_ids [[("id", Value.int 5)], [("id", Value.int 5)]]).count "5" = 2
    ∧ campaign_ids ([("id", Value.str "")] :: []) = campaign_ids [] :=
  ⟨(delete_ids_truthiness_spec.2.2.1
      [[("id", Value.int 5)], [("id", Value.int 5)]] "5").trans (by decide),
   delete_ids_truthiness_spec.1 [("id", Value.str "")] [] rfl⟩

/-- Claim C3: the entry point is total and uniform — every invocation yields
statusCode 200 or 500; when configuration, authentication, fetch and load all
succeed it returns 200 with message Success and the count of fetched records;
when any step raises, it returns 500 carrying that exception message. -/
theorem entry_point_spec (cfg : Config) (auth : TokenResponse)
    (pages : List PageResponse) (bq : BQEnv) (ts : String) :
    ((fetch_kayzen_campaigns cfg auth pages bq ts).1.statusCode = 200 ∨
      (fetch_kayzen_campaigns cfg auth pages bq ts).1.statusCode = 500)
    ∧ (∀ tok recs reqs, configOk cfg = true →
        get_kayzen_access_token auth = Except.ok tok →
        fetch_all_campaigns pages = FetchResult.ok recs reqs →
        (load_campaigns_to_bigquery recs bq ts).2 = none →
        (fetch_kayzen_campaigns cfg auth pages bq ts).1 =
          ⟨200, RespBody.success recs.length⟩)
    ∧ (configOk cfg = false →
        (fetch_kayzen_campaigns cfg auth pages bq ts).1 =
          ⟨500, RespBody.failure "Missing required environment variables"⟩)
    ∧ (∀ e, configOk cfg = true →
        get_kayzen_access_token auth = Except.error e →
        (fetch_kayzen_campaigns cfg auth pages bq ts).1 =
          ⟨500, RespBody.failure e⟩)
    ∧ (∀ tok p s t reqs, configOk cfg = true →
        get_kayzen_access_token auth = Except.ok tok →
        fetch_all_campaigns pages = FetchResult.fail p s t reqs →
        (fetch_kayzen_campaigns cfg auth pages bq ts).1 =
          ⟨500, RespBody.failure (fetchErrorMessage p s t)⟩)
    ∧ (∀ tok recs reqs e, configOk cfg = true →
        get_kayzen_access_token auth = Except.ok tok →
        fetch_all_campaigns pages = FetchResult.ok recs reqs →
        (load_campaigns_to_bigquery recs bq ts).2 = some e →
        (fetch_kayzen_campaigns cfg auth pages bq ts).1 =
          ⟨500, RespBody.failure e⟩) := by
  refine ⟨?_, ?_, ?_, ?_, ?_, ?_⟩
  · by_cases hcfg : configOk cfg
    · cases hauth : get_kayzen_access_token auth with
      | error e => simp [fetch_kayzen_campaigns, hcfg, hauth]
      | ok tok =>
        cases hfetch : fetch_all_campaigns pages with
        | fail p s t reqs => simp [fetch_kayzen_campaigns, hcfg, hauth, hfetch]
        | ok recs reqs =>
          rcases hload : load_campaigns_to_bigquery recs bq ts with ⟨ops, err⟩
          cases err with
          | none =>
            left
            simp [fetch_kayzen_campaigns, hcfg, hauth, hfetch, hload]
          | some e =>
            right
            simp [fetch_kayzen_campaigns, hcfg, hauth, hfetch, hload]
    · right
      simp [fetch_kayzen_campaigns, hcfg]
  · intro tok recs reqs hcfg hauth hfetch hload
    rcases hp : load_campaigns_to_bigquery recs bq ts with ⟨ops, err⟩
    rw [hp] at hload
    simp only at hload
    subst hload
    simp [fetch_kayzen_campaigns, hcfg, hauth, hfetch, hp]
  · intro hcfg
    simp [fetch_kayzen_campaigns, hcfg]
  · intro e hcfg hauth
    simp [fetch_kayzen_campaigns, hcfg, hauth]
  · intro tok p s t reqs hcfg hauth hfetch
    simp [fetch_kayzen_campaigns, hcfg, hauth, hfetch]
  · intro tok recs reqs e hcfg hauth hfetch hload
    rcases hp : load_campaigns_to_bigquery recs bq ts with ⟨ops, err⟩
    rw [hp] at hload
    simp only at hload
    subst hload
    simp [fetch_kayzen_campaigns, hcfg, hauth, hfetch, hp]

/-- Witness for C3: with full configuration, a valid token response and an
account with zero campaigns, the entry point returns 200 with a count of 0. -/
theorem entry_point_spec_witness :
    (fetch_kayzen_campaigns
      ⟨some "k", some "s", some "u", some "p", some "g", some "d", some "t"⟩
      ⟨200, "", [("access_token", Value.str "tok")]⟩ [] allOkEnv "T").1 =
      ⟨200, RespBody.success 0⟩ :=
  (entry_point_spec
    ⟨some "k", some "s", some "u", some "p", some "g", some "d", some "t"⟩
    ⟨200, "", [("access_token", Value.str "tok")]⟩ [] allOkEnv "T").2.1
    (Value.str "tok") [] 1 rfl rfl rfl rfl

/-- Claim C7: if any one of the seven required environment values is missing,
the entry point returns the uniform failure response and performs no I/O at
all: the token endpoint is not called, zero page requests are made, and no
warehouse operation happens. -/
theorem config_missing_spec (cfg : Config)
    (h : cfg.api_key = none ∨ cfg.api_secret = none ∨ cfg.username = none ∨
      cfg.password = none ∨ cfg.project_id = none ∨ cfg.dataset_id = none ∨
      cfg.table_id = none) :
    ∀ auth pages bq ts,
      fetch_kayzen_campaigns cfg auth pages bq ts =
        (⟨500, RespBody.failure "Missing required environment variables"⟩,
          ⟨false, 0, []⟩) := by
  have hok : configOk cfg = false := by
    rcases h with h | h | h | h | h | h | h <;>
      simp [configOk, h, pyTruthyStrOpt]
  intro auth pages bq ts
  simp [fetch_kayzen_campaigns, hok]

/-- Witness for C7: an environment lacking the API key yields the failure
response with an empty I/O trace, whatever the other oracles would answer. -/
theorem config_missing_spec_witness :
    fetch_kayzen_campaigns
      ⟨none, some "s", some "u", some "p", some "g", some "d", some "t"⟩
      ⟨200, "", [("access_token", Value.str "tok")]⟩
      [⟨200, "", [[("id", Value.int 1)]]⟩] allOkEnv "T" =
      (⟨500, RespBody.failure "Missing required environment variables"⟩,
        ⟨false, 0, []⟩) :=
  config_missing_spec
    ⟨none, some "s", some "u", some "p", some "g", some "d", some "t"⟩
    (Or.inl rfl)
    ⟨200, "", [("access_token", Value.str "tok")]⟩
    [⟨200, "", [[("id", Value.int 1)]]⟩] allOkEnv "T"
